import Mathlib

/-!
Shallow embedding of the `nuix` text-field widgets, translated from
`src/nuix/lineedit.py` and `src/nuix/bubble_edit.py`.

Modelling conventions:
* Python strings are `String`; `str.strip()` is `String.trim`;
  `s.replace(pat, "")` is `pyRemove` (splitting on the pattern and joining,
  which matches Python's non-overlapping left-to-right replacement; an empty
  pattern with an empty replacement leaves the string unchanged in Python).
* `re.split(self.SEPARATOR, text)` and `re.findall(self.SEPARATOR, text)` use
  the class constant `SEPARATOR = "[_]"` as a regular expression; as a regex
  the character class matches exactly the single character underscore, so the
  split is `String.splitOn "_"` and the findall test is membership of the
  underscore character.  The substring test `text in self.SEPARATOR` however
  operates on the raw three-character literal.
* Python `int` is `Int`; truthiness of an int is `≠ 0`; truthiness of a
  string is `≠ ""`; truthiness of a list is `≠ []`.
* Widget-only effects (stylesheets, `deleteLater`, showing the completion
  popup, layout `addWidget`) carry no modelled state; the remaining widget
  state is a record.  The font-metric width of a rendered string is an
  explicit parameter `adv : String → Nat`, and the inherited toolkit key
  handler (`QLineEdit.keyPressEvent`) is an explicit parameter `base`.
-/

namespace Nuix

/-- The three visual variants of a `Bubbles` label: the default constructor,
`Bubbles.syntax_label` and `Bubbles.plain_label`. -/
inductive Variant where
  | defaultStyle
  | syntaxStyle
  | plainStyle
deriving DecidableEq, Repr

/-- A `Bubbles` widget: its display text and which styling variant built it.
Its fixed rendered width is `adv text + 20` (font advance plus the default
padding of 20), recovered by `bubble_width`. -/
structure Bubble where
  text : String
  variant : Variant
deriving DecidableEq, Repr

/-- Key identities used by the modelled key handlers. -/
inductive Key where
  | backspace
  | up
  | down
  | enter
  | other
deriving DecidableEq, Repr

/-- Python `str.strip()`: remove leading and trailing whitespace.  (Defined
on the character list by structural recursion so that concrete instances
reduce inside the kernel, which Lean's own `String.trim` does not.) -/
def pyStrip (s : String) : String :=
  ⟨((s.data.dropWhile Char.isWhitespace).reverse.dropWhile Char.isWhitespace).reverse⟩

/-- Fuel-driven splitter on a literal pattern: leftmost, non-overlapping,
exactly Python's `re.split` on a fixed single-character pattern and Python's
scan order for `str.replace`.  The fuel makes the recursion structural. -/
def pySplitAux (pat : List Char) : Nat → List Char → List Char → List (List Char)
  | _, acc, [] => [acc.reverse]
  | 0, acc, rest => [acc.reverse ++ rest]
  | fuel + 1, acc, c :: cs =>
    if pat.isPrefixOf (c :: cs) then
      acc.reverse :: pySplitAux pat fuel [] ((c :: cs).drop pat.length)
    else
      pySplitAux pat fuel (c :: acc) cs

/-- Split a string on every occurrence of a (non-empty) literal pattern. -/
def pySplit (pat s : String) : List String :=
  (pySplitAux pat.data (s.data.length + 1) [] s.data).map String.mk

/-- Python `s.replace(pat, "")`: remove every non-overlapping occurrence of
`pat`, scanning left to right; with an empty pattern the result is `s`. -/
def pyRemove (s pat : String) : String :=
  if pat = "" then s else String.join (pySplit pat s)

/-- Python `pat in s` for strings: substring containment. -/
def strContains (s pat : String) : Bool :=
  if pat = "" then true else decide (2 ≤ (pySplit pat s).length)

/-- Python `s.isdigit()` (restricted to ASCII digits): non-empty and all
characters are digits. -/
def pyIsDigit (s : String) : Bool :=
  !s.isEmpty && s.data.all Char.isDigit

/-- `LineEditWithBubbles.SEPARATOR`. -/
def SEPARATOR : String := "[_]"

/-- `LineEditWithBubbles.TAG_PADDING`. -/
def TAG_PADDING : Nat := 2

/-- `LineEditValidator.VALIDATOR_PATTERN`. -/
def VALIDATOR_PATTERN : String := "[a-zA-Z]+[a-zA-Z0-9_]+"

/-- The modelled widget state.  A `LineEditWithBubbles` is a
`LineEditWithCompleter`, so one record carries the fields of the whole
inheritance chain; a plain completer field simply never touches `tags`,
`leftTextMargin` or `limit`. -/
structure LineEditState where
  /-- `self.LIMIT` (a Python int; the class default is -1, instances get
  `kwargs.get("limit", 10)`). -/
  limit : Int
  /-- `self.tags`. -/
  tags : List Bubble
  /-- `self.text()`, the pending text buffer. -/
  text : String
  /-- `self.selectedText()`. -/
  selectedText : String
  /-- whether `blockSignals(True)` is in force. -/
  signalsBlocked : Bool
  /-- the left component of `setTextMargins(left, 0, 0, 0)`. -/
  leftTextMargin : Nat
  /-- the pattern of the active `QRegExpValidator`. -/
  validatorPattern : String
  /-- `self.complete_items`. -/
  complete_items : List String
deriving DecidableEq, Repr

/-- A `Bubbles` widget's fixed width: `fontMetrics().horizontalAdvance(text)`
plus the default padding 20 (`bubble_edit.py` line 37). -/
def bubble_width (adv : String → Nat) (b : Bubble) : Nat :=
  adv b.text + 20

/-- `LineEditWithBubbles.tag_names`: the texts of the tags, skipping falsy
(empty) texts. -/
def tag_names (st : LineEditState) : List String :=
  (st.tags.map Bubble.text).filter (fun s => s != "")

/-- `LineEditWithBubbles.tags_width`: `sum(tag.width() + TAG_PADDING ...)`. -/
def tags_width (adv : String → Nat) (tags : List Bubble) : Nat :=
  (tags.map (fun t => bubble_width adv t + TAG_PADDING)).sum

/-- The `for split_text in re.split(...)` loop of `get_syntax_label`
(lines 126-130): trim each fragment, skip it when it is empty, already a tag
name, or not a completion candidate, and return a default-style `Bubbles`
from the first fragment that survives. -/
def findFragment (st : LineEditState) : List String → Option String
  | [] => none
  | s :: rest =>
    let s := pyStrip s
    if s = "" ∨ (tag_names st).contains s ∨ ¬ st.complete_items.contains s then
      findFragment st rest
    else some s

/-- `LineEditWithBubbles.get_syntax_label` (lines 109-135). -/
def get_syntax_label (st : LineEditState) (text : String) : Option Bubble :=
  let t := if pyStrip text = "" then pyStrip st.text else pyStrip text
  if t = "" then none
  else if 0 < st.limit ∧ st.limit ≤ (st.tags.length : Int) then none
  else
    match findFragment st (pySplit "_" t) with
    | some s => some ⟨s, Variant.defaultStyle⟩
    | none =>
      if t.data.contains '_' then
        if strContains SEPARATOR t then some ⟨pyStrip t, Variant.syntaxStyle⟩
        else some ⟨pyStrip t, Variant.plainStyle⟩
      else none

/-- `LineEditWithBubbles.insert_tag` (lines 137-160).  Returns the boolean
result together with the updated state.  The guard on line 148 is
`not text or (self.LIMIT and len(self.tags) >= self.LIMIT)`, where the int
`self.LIMIT` is truthy exactly when it is non-zero. -/
def insert_tag (adv : String → Nat) (st : LineEditState) (text : String) :
    Bool × LineEditState :=
  if text = "" then (false, st)
  else if text = "" ∨ (st.limit ≠ 0 ∧ st.limit ≤ (st.tags.length : Int)) then (false, st)
  else
    match get_syntax_label st text with
    | none => (false, st)
    | some label =>
      let tags := st.tags ++ [label]
      (true, { st with
        tags := tags
        leftTextMargin := tags_width adv tags
        text := pyStrip (pyRemove st.text text) })

/-- `LineEditWithBubbles.editing_finished_trigger` (lines 182-195): reset the
validator to `f"{SEPARATOR}?" + VALIDATOR_PATTERN` when tags exist, to the
bare pattern otherwise. -/
def editing_finished_trigger (st : LineEditState) : LineEditState :=
  let validation_string :=
    if st.tags ≠ [] then SEPARATOR ++ "?" ++ VALIDATOR_PATTERN else VALIDATOR_PATTERN
  { st with validatorPattern := validation_string }

/-- `LineEditWithCompleter.keyPressEvent` (`lineedit.py` lines 50-76).
`base` is the inherited `QLineEdit` handler the event is forwarded to.  The
returned boolean records whether the special backspace branch (lines 56-62)
ran.  The completion-popup block (lines 64-69) only shows a popup and touches
no modelled state. -/
def completerKeyPressEvent (base : Key → LineEditState → LineEditState)
    (key : Key) (st : LineEditState) : LineEditState × Bool :=
  if key = Key.backspace ∧ st.text ≠ "" then
    let st1 := { st with signalsBlocked := true }
    let st2 := { st1 with text := pyRemove st1.text st1.selectedText }
    let st3 := base key st2
    ({ st3 with signalsBlocked := false }, true)
  else
    let st1 :=
      if (key = Key.up ∨ key = Key.down) ∧ pyIsDigit st.text then
        { st with
          text := toString ((st.text.toNat?.getD 0 : Int) +
            (if key = Key.up then 1 else -1)) }
      else st
    (base key st1, false)

/-- `LineEditWithBubbles.keyPressEvent` (`bubble_edit.py` lines 162-180).
The returned boolean records whether the event reached the inherited handler
(`false` on the backspace-with-tags-and-empty-text early return, which pops
the last tag, recomputes the margin and returns). -/
def bubblesKeyPressEvent (adv : String → Nat)
    (base : Key → LineEditState → LineEditState) (key : Key)
    (st : LineEditState) : LineEditState × Bool :=
  if key = Key.backspace ∧ st.tags ≠ [] ∧ st.text = "" then
    let tags := st.tags.dropLast
    ({ st with tags := tags, leftTextMargin := tags_width adv tags }, false)
  else
    let st1 := (completerKeyPressEvent base key st).1
    let st2 := (insert_tag adv st1 (pyStrip st1.text)).2
    (editing_finished_trigger st2, true)

/-- Fold a list of `insert_tag` calls over a state. -/
def processAll (adv : String → Nat) (st : LineEditState) : List String → LineEditState
  | [] => st
  | t :: ts => processAll adv (insert_tag adv st t).2 ts

/-- The label a single `insert_tag` call appends, when it succeeds. -/
def insertedLabel (adv : String → Nat) (st : LineEditState) (t : String) :
    Option Bubble :=
  if (insert_tag adv st t).1 then get_syntax_label st t else none

/-- The labels appended by the successful calls of a sequence of
`insert_tag` calls, in call order. -/
def successLabels (adv : String → Nat) : LineEditState → List String → List Bubble
  | _, [] => []
  | st, t :: ts =>
    (insertedLabel adv st t).toList ++ successLabels adv (insert_tag adv st t).2 ts

/-- A fragment qualifies for a default-style tag when it is non-empty, not
already a tag name, and a completion candidate. -/
def qualifies (st : LineEditState) (s : String) : Bool :=
  (s != "") && !((tag_names st).contains s) && st.complete_items.contains s

/-! ## Helper lemmas -/

theorem qualifies_eq_true_iff (st : LineEditState) (s : String) :
    qualifies st s = true ↔
      ¬(s = "" ∨ ((tag_names st).contains s : Prop) ∨
        ¬ (st.complete_items.contains s : Prop)) := by
  simp only [qualifies, Bool.and_eq_true, bne_iff_ne, ne_eq, Bool.not_eq_true',
    not_or, Bool.not_eq_true, Bool.not_eq_false, not_not]
  tauto

theorem findFragment_eq_find? (st : LineEditState) (l : List String) :
    findFragment st l = (l.map pyStrip).find? (qualifies st) := by
  induction l with
  | nil => rfl
  | cons a l ih =>
    simp only [findFragment, List.map_cons]
    by_cases h : pyStrip a = "" ∨ ((tag_names st).contains (pyStrip a) : Prop) ∨
        ¬ (st.complete_items.contains (pyStrip a) : Prop)
    · rw [if_pos h, ih,
        List.find?_cons_of_neg _ (fun hq => (qualifies_eq_true_iff st (pyStrip a)).mp hq h)]
    · rw [if_neg h, List.find?_cons_of_pos _ ((qualifies_eq_true_iff st (pyStrip a)).mpr h)]

theorem insert_tag_tags_eq (adv : String → Nat) (st : LineEditState) (t : String) :
    (insert_tag adv st t).2.tags = st.tags ++ (insertedLabel adv st t).toList := by
  by_cases h1 : t = ""
  · simp [insert_tag, insertedLabel, h1]
  · by_cases hP : st.limit ≠ 0 ∧ st.limit ≤ (st.tags.length : Int)
    · simp [insert_tag, insertedLabel, h1, hP]
    · cases hm : get_syntax_label st t with
      | none => simp [insert_tag, insertedLabel, h1, hP, hm]
      | some l => simp [insert_tag, insertedLabel, h1, hP, hm]

theorem processAll_tags (adv : String → Nat) (st : LineEditState) (ts : List String) :
    (processAll adv st ts).tags = st.tags ++ successLabels adv st ts := by
  induction ts generalizing st with
  | nil => simp [processAll, successLabels]
  | cons t ts ih =>
    simp only [processAll, successLabels]
    rw [ih, insert_tag_tags_eq, List.append_assoc]

/-! ## Concrete states for witnesses and counterexamples -/

/-- An empty widget with no candidates and an unlimited (zero) limit. -/
def emptyState : LineEditState :=
  { limit := 0, tags := [], text := "", selectedText := "", signalsBlocked := false,
    leftTextMargin := 0, validatorPattern := VALIDATOR_PATTERN, complete_items := [] }

/-- A widget at its positive limit 2, holding two tags. -/
def fullState : LineEditState :=
  { emptyState with
    limit := 2
    tags := [⟨"apple", Variant.defaultStyle⟩, ⟨"banana", Variant.defaultStyle⟩]
    complete_items := ["apple", "banana", "cherry"] }

/-- A widget whose class-documented "no limit" value -1 is in force. -/
def negLimitState : LineEditState :=
  { emptyState with limit := -1, complete_items := ["apple"] }

/-- A widget with pending text `"apple_"` and candidate `"apple"`. -/
def pendingAppleState : LineEditState :=
  { emptyState with limit := 10, text := "apple_", complete_items := ["apple"] }

/-- A widget with two tags, blank pending text. -/
def twoTagState : LineEditState :=
  { emptyState with
    limit := 10
    tags := [⟨"apple", Variant.defaultStyle⟩, ⟨"banana", Variant.defaultStyle⟩]
    leftTextMargin := 55
    complete_items := ["apple", "banana"] }

/-- A widget whose visible text `"zapplez"` strictly contains the candidate
`"apple"`. -/
def zapplezState : LineEditState :=
  { emptyState with text := "zapplez", complete_items := ["apple"] }

/-- A widget with a single candidate `"apple"` and empty pending text. -/
def appleOnlyState : LineEditState :=
  { emptyState with complete_items := ["apple"] }

/-- A completer field with text `"abc"` and no selection. -/
def noSelectionState : LineEditState :=
  { emptyState with limit := 10, text := "abc" }

/-- A widget holding exactly one tag, blank text, and the separator-prefixed
validator installed by `editing_finished_trigger`. -/
def oneTagState : LineEditState :=
  { emptyState with
    limit := 10
    tags := [⟨"apple", Variant.defaultStyle⟩]
    leftTextMargin := 27
    validatorPattern := SEPARATOR ++ "?" ++ VALIDATOR_PATTERN
    complete_items := ["apple"] }

/-! ## Claims -/

/-- C1: for every limit L > 0, once the tag sequence holds L tags every
further `insert_tag` call returns `false` and leaves the state (hence the
tag count) unchanged, and from any count ≤ L the count never exceeds L. -/
theorem C1_limit_cap (adv : String → Nat) (st : LineEditState) (t : String)
    (hpos : 0 < st.limit) :
    ((st.tags.length : Int) = st.limit → insert_tag adv st t = (false, st)) ∧
    ((st.tags.length : Int) ≤ st.limit →
      (((insert_tag adv st t).2.tags.length : Int) ≤ st.limit)) := by
  constructor
  · intro heq
    have hP : st.limit ≠ 0 ∧ st.limit ≤ (st.tags.length : Int) := by omega
    by_cases ht : t = "" <;> simp [insert_tag, ht, hP]
  · intro hle
    rw [insert_tag_tags_eq]
    cases hIL : insertedLabel adv st t with
    | none => simpa using hle
    | some l =>
      have hsucc : (insert_tag adv st t).1 = true := by
        by_contra hf
        simp only [Bool.not_eq_true] at hf
        simp [insertedLabel, hf] at hIL
      have hlt : ¬ (st.limit ≤ (st.tags.length : Int)) := by
        intro hge
        have hP : st.limit ≠ 0 ∧ st.limit ≤ (st.tags.length : Int) := by omega
        by_cases ht : t = ""
        · simp [insert_tag, ht] at hsucc
        · simp [insert_tag, ht, hP] at hsucc
      simp only [Option.toList_some, List.length_append, List.length_cons,
        List.length_nil]
      omega

/-- C1 witness: at the concrete full state (limit 2, two tags) a further
insertion of `"cherry"` fails and the count stays at the limit. -/
theorem C1_witness :
    0 < fullState.limit ∧
    (((fullState.tags.length : Int) = fullState.limit →
        insert_tag String.length fullState "cherry" = (false, fullState)) ∧
      ((fullState.tags.length : Int) ≤ fullState.limit →
        (((insert_tag String.length fullState "cherry").2.tags.length : Int) ≤
          fullState.limit))) :=
  ⟨by decide, C1_limit_cap String.length fullState "cherry" (by decide)⟩

/-- C2: the claim (and the code's own comment on `LIMIT = -1`, line 83:
"-1 means no limit") says a negative limit is unlimited, but the guard
`self.LIMIT and len(self.tags) >= self.LIMIT` on line 148 is true for every
negative `LIMIT` even with an empty tag list, so `insert_tag` rejects every
insertion: with limit -1, no tags, and a text whose label would otherwise be
created, `insert_tag` still returns `false`. -/
theorem C2_negative_limit_always_rejects :
    negLimitState.limit = -1 ∧ negLimitState.tags = [] ∧
    get_syntax_label negLimitState "apple" =
      some ⟨"apple", Variant.defaultStyle⟩ ∧
    insert_tag String.length negLimitState "apple" = (false, negLimitState) := by
  decide

/-- C3 counterexample: the whitespace-only input `" "` inserted into a field
whose pending text is `"apple_"` (candidate `"apple"`) does create a tag and
returns `true`, because `get_syntax_label` falls back to the field text when
the argument strips to empty. -/
theorem C3_counterexample :
    pyStrip " " = "" ∧
    (insert_tag String.length pendingAppleState " ").1 = true ∧
    (insert_tag String.length pendingAppleState " ").2.tags =
      [⟨"apple", Variant.defaultStyle⟩] := by
  decide

/-- C3 (amended): an empty input always fails and leaves the state unchanged,
whatever the field's pending text; a whitespace-only input fails and leaves
the state unchanged provided the field's own pending text also strips to
empty (otherwise the field text is taken as the candidate instead). -/
theorem C3_blank_insert_fails (adv : String → Nat) (st : LineEditState)
    (t : String) (h : t = "" ∨ (pyStrip t = "" ∧ pyStrip st.text = "")) :
    insert_tag adv st t = (false, st) := by
  rcases h with ht | ⟨ht, hst⟩
  · simp [insert_tag, ht]
  · by_cases hts : t = ""
    · simp [insert_tag, hts]
    · have hlab : get_syntax_label st t = none := by
        simp [get_syntax_label, ht, hst]
      by_cases hP : st.limit ≠ 0 ∧ st.limit ≤ (st.tags.length : Int)
      · simp [insert_tag, hts, hP]
      · simp [insert_tag, hts, hP, hlab]

/-- C3 witness, exercising both clauses: inserting `""` fails and changes
nothing even with the non-blank pending text `"apple_"`, and inserting the
whitespace-only `" "` into the blank empty widget fails and changes
nothing. -/
theorem C3_witness :
    (("" = "" ∨ (pyStrip "" = "" ∧ pyStrip pendingAppleState.text = "")) ∧
      insert_tag String.length pendingAppleState "" = (false, pendingAppleState)) ∧
    ((" " = "" ∨ (pyStrip " " = "" ∧ pyStrip emptyState.text = "")) ∧
      insert_tag String.length emptyState " " = (false, emptyState)) :=
  ⟨⟨Or.inl rfl,
    C3_blank_insert_fails String.length pendingAppleState "" (Or.inl rfl)⟩,
   ⟨Or.inr ⟨by decide, by decide⟩,
    C3_blank_insert_fails String.length emptyState " "
      (Or.inr ⟨by decide, by decide⟩)⟩⟩

/-- C4: with empty pending text and a non-empty tag sequence, a backspace
key press removes exactly the most recently added tag (`List.dropLast`),
recomputes the left text margin from the remaining tags, and does not
forward the keystroke to the inherited handler (`false`). -/
theorem C4_backspace_pops_last (adv : String → Nat)
    (base : Key → LineEditState → LineEditState) (st : LineEditState)
    (htags : st.tags ≠ []) (htext : st.text = "") :
    bubblesKeyPressEvent adv base Key.backspace st =
      ({ st with
          tags := st.tags.dropLast
          leftTextMargin := tags_width adv st.tags.dropLast }, false) := by
  simp [bubblesKeyPressEvent, htags, htext]

/-- C4 witness: at the concrete two-tag state, backspace pops `"banana"`
(the most recent tag) and is not forwarded. -/
theorem C4_witness :
    twoTagState.tags ≠ [] ∧ twoTagState.text = "" ∧
    bubblesKeyPressEvent String.length (fun _ s => s) Key.backspace twoTagState =
      ({ twoTagState with
          tags := twoTagState.tags.dropLast
          leftTextMargin := tags_width String.length twoTagState.tags.dropLast },
        false) :=
  ⟨by decide, rfl,
    C4_backspace_pops_last String.length (fun _ s => s) twoTagState (by decide) rfl⟩

/-- C5 counterexample: the pending text `"_]"` contains the separator-matched
character, is not equal to the separator under either reading (`"[_]"` or the
matched `"_"`), yet `get_syntax_label` builds a *syntax*-style tag, not the
plain-style tag the claim requires, because the code's test
`text in self.SEPARATOR` is substring containment in the literal `"[_]"`. -/
theorem C5_counterexample :
    get_syntax_label emptyState "_]" = some ⟨"_]", Variant.syntaxStyle⟩ ∧
    "_]" ≠ SEPARATOR ∧ "_]" ≠ "_" := by
  decide

/-- C5 (amended): for pending text containing the separator-matched character
with no qualifying split fragment, a syntax-style tag is created exactly when
the text is a substring of the separator literal `"[_]"`; otherwise a
plain-style tag is created from the full pending text. -/
theorem C5_variant_by_substring (st : LineEditState) (text : String)
    (hid : pyStrip text = text) (hne : text ≠ "")
    (hlim : ¬(0 < st.limit ∧ st.limit ≤ (st.tags.length : Int)))
    (hfrag : findFragment st (pySplit "_" text) = none)
    (hus : text.data.contains '_' = true) :
    get_syntax_label st text =
      some ⟨text, if strContains SEPARATOR text then Variant.syntaxStyle
                  else Variant.plainStyle⟩ := by
  simp only [get_syntax_label, hid, if_neg hne, hfrag, hlim, if_false, hus, if_true]
  split <;> simp [hid]

/-- C5 witness: `"a_"` is not a substring of `"[_]"`, so it becomes a
plain-style tag. -/
theorem C5_witness :
    pyStrip "a_" = "a_" ∧ "a_" ≠ "" ∧
    ¬(0 < emptyState.limit ∧ emptyState.limit ≤ (emptyState.tags.length : Int)) ∧
    findFragment emptyState (pySplit "_" "a_") = none ∧
    "a_".data.contains '_' = true ∧
    get_syntax_label emptyState "a_" =
      some ⟨"a_", if strContains SEPARATOR "a_" then Variant.syntaxStyle
                  else Variant.plainStyle⟩ :=
  ⟨by decide, by decide, by decide, by decide, by decide,
    C5_variant_by_substring emptyState "a_" (by decide) (by decide) (by decide)
      (by decide) (by decide)⟩

/-- A widget with candidates `"apple"` and `"banana"`, no tags yet. -/
def candState : LineEditState :=
  { emptyState with complete_items := ["apple", "banana"] }

/-- C6: when the pending text splits on the separator into several fragments,
the label is built from the *first* fragment in split order that is non-empty
after trimming, not already a tag name, and present in the candidate list
(`List.find?` over the trimmed fragments), with the default style; and one
`insert_tag` call grows the tag sequence by at most one. -/
theorem C6_first_fragment_wins (adv : String → Nat) (st : LineEditState)
    (text f : String)
    (hid : pyStrip text = text) (hne : text ≠ "")
    (hlim : ¬(0 < st.limit ∧ st.limit ≤ (st.tags.length : Int)))
    (hfind : ((pySplit "_" text).map pyStrip).find? (qualifies st) = some f) :
    get_syntax_label st text = some ⟨f, Variant.defaultStyle⟩ ∧
    (insert_tag adv st text).2.tags.length ≤ st.tags.length + 1 := by
  constructor
  · rw [← findFragment_eq_find?] at hfind
    simp [get_syntax_label, hid, hne, hlim, hfind]
  · rw [insert_tag_tags_eq]
    cases insertedLabel adv st text with
    | none => simp
    | some l => simp

/-- C6 witness: with candidates `"apple"` and `"banana"` the input
`"apple_banana"` yields a default-style `"apple"`, the first fragment. -/
theorem C6_witness :
    pyStrip "apple_banana" = "apple_banana" ∧ "apple_banana" ≠ "" ∧
    ¬(0 < candState.limit ∧ candState.limit ≤ (candState.tags.length : Int)) ∧
    ((pySplit "_" "apple_banana").map pyStrip).find? (qualifies candState) =
      some "apple" ∧
    (get_syntax_label candState "apple_banana" =
        some ⟨"apple", Variant.defaultStyle⟩ ∧
      (insert_tag String.length candState "apple_banana").2.tags.length ≤
        candState.tags.length + 1) :=
  ⟨by decide, by decide, by decide, by decide,
    C6_first_fragment_wins String.length candState "apple_banana" "apple"
      (by decide) (by decide) (by decide) (by decide)⟩

/-- C7 counterexample: in a field whose visible text is `"zapplez"`,
`insert_tag "apple_x"` succeeds and promotes `"apple"` to a tag, but
`self.text().replace("apple_x", "")` removes nothing, so the visible text
still contains the substring `"apple"` that is now a tag. -/
theorem C7_counterexample :
    (insert_tag String.length zapplezState "apple_x").1 = true ∧
    tag_names (insert_tag String.length zapplezState "apple_x").2 = ["apple"] ∧
    (insert_tag String.length zapplezState "apple_x").2.text = "zapplez" ∧
    strContains (insert_tag String.length zapplezState "apple_x").2.text "apple" =
      true := by
  decide

/-- C7 (amended): a successful `insert_tag` removes every occurrence of its
*argument* string from the pending text buffer and strips the result; it does
not guarantee the visible text is free of the committed label's text, which
can differ from the argument. -/
theorem C7_removes_argument (adv : String → Nat) (st : LineEditState)
    (t : String) (h : (insert_tag adv st t).1 = true) :
    (insert_tag adv st t).2.text = pyStrip (pyRemove st.text t) := by
  by_cases h1 : t = ""
  · simp [insert_tag, h1] at h
  · by_cases hP : st.limit ≠ 0 ∧ st.limit ≤ (st.tags.length : Int)
    · simp [insert_tag, h1, hP] at h
    · cases hm : get_syntax_label st t with
      | none => simp [insert_tag, h1, hP, hm] at h
      | some l => simp [insert_tag, h1, hP, hm]

/-- C7 witness: inserting `"apple_"` into the field whose text is `"apple_"`
succeeds and the new text is the old one with the argument removed. -/
theorem C7_witness :
    (insert_tag String.length pendingAppleState "apple_").1 = true ∧
    (insert_tag String.length pendingAppleState "apple_").2.text =
      pyStrip (pyRemove pendingAppleState.text "apple_") :=
  ⟨by decide,
    C7_removes_argument String.length pendingAppleState "apple_" (by decide)⟩

/-- C8 counterexample: the single successful call `insert_tag "apple_x"`
appends a tag whose text is the qualifying fragment `"apple"`, so
`tag_names()` is `["apple"]`, not the sequence `["apple_x"]` of texts passed
to the successful insertion calls. -/
theorem C8_counterexample :
    (insert_tag String.length appleOnlyState "apple_x").1 = true ∧
    tag_names (insert_tag String.length appleOnlyState "apple_x").2 = ["apple"] ∧
    "apple" ≠ "apple_x" := by
  decide

/-- C8 (amended): over any sequence of `insert_tag` calls the tag sequence
is the initial one followed by the labels created by the successful calls in
call order (each successful call appends exactly one label at the end,
failures change nothing), and `tag_names()` returns those labels' non-empty
texts in the same order — the labels' texts, not the call arguments. -/
theorem C8_append_in_call_order (adv : String → Nat) (st : LineEditState)
    (ts : List String) :
    (processAll adv st ts).tags = st.tags ++ successLabels adv st ts ∧
    tag_names (processAll adv st ts) =
      tag_names st ++
        ((successLabels adv st ts).map Bubble.text).filter (fun s => s != "") := by
  refine ⟨processAll_tags adv st ts, ?_⟩
  simp [tag_names, processAll_tags adv st ts, List.filter_append]

/-- C9 counterexample: with text `"abc"` and *no* selection, a backspace
still takes the special branch (the code's guard is `self.text()`, not the
presence of a selection), contradicting the claim's "exactly when ... there
is a current text selection". -/
theorem C9_counterexample :
    noSelectionState.selectedText = "" ∧
    (completerKeyPressEvent (fun _ s => s) Key.backspace noSelectionState).2 =
      true := by
  decide

/-- C9 (amended): the special backspace branch of
`LineEditWithCompleter.keyPressEvent` is taken exactly when the key is
backspace and the field's text is non-empty, regardless of any selection
(with no selection the replace of the selected substring is a no-op). -/
theorem C9_branch_iff (base : Key → LineEditState → LineEditState) (key : Key)
    (st : LineEditState) :
    (completerKeyPressEvent base key st).2 = true ↔
      (key = Key.backspace ∧ st.text ≠ "") := by
  by_cases h : key = Key.backspace ∧ st.text ≠ ""
  · simp [completerKeyPressEvent, h]
  · simp [completerKeyPressEvent, h]

/-- C10: removing a tag via backspace-on-empty changes only the tag list and
the left text margin (the whole result state is the input with `tags` popped
and the margin recomputed, and the keystroke is not forwarded); in
particular, after the last tag is removed the validator pattern still carries
the optional leading-separator prefix, although a recomputation
(`editing_finished_trigger`) would now install the bare pattern. -/
theorem C10_backspace_keeps_validator (adv : String → Nat)
    (base : Key → LineEditState → LineEditState) (st : LineEditState)
    (htext : st.text = "") (hlen : st.tags.length = 1)
    (hval : st.validatorPattern = SEPARATOR ++ "?" ++ VALIDATOR_PATTERN) :
    bubblesKeyPressEvent adv base Key.backspace st =
      ({ st with tags := [], leftTextMargin := tags_width adv [] }, false) ∧
    (bubblesKeyPressEvent adv base Key.backspace st).1.validatorPattern =
      SEPARATOR ++ "?" ++ VALIDATOR_PATTERN ∧
    (editing_finished_trigger
        (bubblesKeyPressEvent adv base Key.backspace st).1).validatorPattern =
      VALIDATOR_PATTERN := by
  have htags : st.tags ≠ [] := by
    intro hnil
    rw [hnil] at hlen
    simp at hlen
  have hdrop : st.tags.dropLast = [] := by
    have h1 : st.tags.dropLast.length = st.tags.length - 1 :=
      List.length_dropLast st.tags
    rw [hlen] at h1
    exact List.eq_nil_of_length_eq_zero h1
  have hmain : bubblesKeyPressEvent adv base Key.backspace st =
      ({ st with tags := [], leftTextMargin := tags_width adv [] }, false) := by
    simp [bubblesKeyPressEvent, htags, htext, hdrop]
  refine ⟨hmain, ?_, ?_⟩
  · rw [hmain]
    exact hval
  · rw [hmain]
    simp [editing_finished_trigger]

/-- C10 witness: at the concrete one-tag state with the separator-prefixed
validator, backspace empties the tag list yet the prefixed validator stays. -/
theorem C10_witness :
    oneTagState.text = "" ∧ oneTagState.tags.length = 1 ∧
    oneTagState.validatorPattern = SEPARATOR ++ "?" ++ VALIDATOR_PATTERN ∧
    (bubblesKeyPressEvent String.length (fun _ s => s) Key.backspace oneTagState =
        ({ oneTagState with
            tags := []
            leftTextMargin := tags_width String.length [] }, false) ∧
      (bubblesKeyPressEvent String.length (fun _ s => s) Key.backspace
          oneTagState).1.validatorPattern =
        SEPARATOR ++ "?" ++ VALIDATOR_PATTERN ∧
      (editing_finished_trigger
          (bubblesKeyPressEvent String.length (fun _ s => s) Key.backspace
            oneTagState).1).validatorPattern =
        VALIDATOR_PATTERN) :=
  ⟨rfl, by decide, rfl,
    C10_backspace_keeps_validator String.length (fun _ s => s) oneTagState rfl
      (by decide) rfl⟩

end Nuix
